import Mathlib

/-!
Shallow embedding of the ISKCON-Broadcast camera/orchestration core,
translated from the Python sources:

* `src/src/video_stream.py` — async dispatcher, camera-move queue, schedule walker
* `src/video_stream.py` — legacy dispatcher (`execute_action`)
* `src/camera.py` — HTTP camera driver (`get_token`, `send_ptz_command`)
* `src/src/cameras/ip_camera.py`, `src/src/cameras/mock_camera.py` — plugins
* `src/src/camera_registry.py` — registry/factory and roster builder
* `src/src/camera_interface.py` — base handle state

Durations and times-of-day are modelled as natural numbers; cooperative
concurrency (asyncio) is modelled by sequential event traces for the
sequential drain loop and by completion-time semantics for `gather`.
-/

namespace IskconBroadcast

/-- A camera handle as produced by the registry: `CameraInterface.__init__`
stores `camera_id`; the `kind` records which plugin built it. -/
structure CameraHandle where
  camera_id : Nat
  kind : String
deriving DecidableEq, Repr

/-- Observable events of the PTZ/action layer: an outgoing PTZ command
(aimed at camera `target`, with `op` parameter, speed and preset id),
a cooperative sleep, or a logged warning. -/
inductive PtzEv where
  | ptz (target : Nat) (parameter : String) (speed : Nat) (id : Nat)
  | sleep (duration : Nat)
  | warnCameraNotFound
  | warnUnknownAction
deriving DecidableEq, Repr

/-- A `camera_move` task dict as enqueued on `camera_move_queue` in
`src/src/video_stream.py`: keys `type`, `duration`, optional `marker`;
a `camera_id` key may be present on the dict but is never read by the
async move processor. -/
structure MoveTask where
  type : String
  duration : Nat
  marker : Option Nat := none
  camera_id : Option Nat := none
deriving DecidableEq, Repr

/-- `process_camera_move` (src/src/video_stream.py lines 59-68): if the
roster is non-empty, send the task's motion command to `cameras[0]`, sleep
for the declared duration, then send `Stop` to `cameras[0]`.  The trace
records the commands in order. -/
def process_camera_move (cams : List CameraHandle) (t : MoveTask) : List PtzEv :=
  (match cams with
   | [] => []
   | c :: _ => [PtzEv.ptz c.camera_id t.type 32 (t.marker.getD 0)])
  ++ [PtzEv.sleep t.duration]
  ++ (match cams with
      | [] => []
      | c :: _ => [PtzEv.ptz c.camera_id "Stop" 32 0])

/-- `process_camera_move_queue` (src/src/video_stream.py lines 70-74): the
while-loop pops the queue front and fully processes it before looking at
the next entry; recursion on the queue list mirrors the loop. -/
def process_camera_move_queue (cams : List CameraHandle) : List MoveTask → List PtzEv
  | [] => []
  | t :: ts => process_camera_move cams t ++ process_camera_move_queue cams ts

/-- Project the `op` parameters of the PTZ commands out of a trace,
dropping sleeps and warnings. -/
def ptzParams : List PtzEv → List String
  | [] => []
  | PtzEv.ptz _ p _ _ :: rest => p :: ptzParams rest
  | _ :: rest => ptzParams rest

/-- Project the target camera ids of the PTZ commands out of a trace. -/
def ptzTargets : List PtzEv → List Nat
  | [] => []
  | PtzEv.ptz c _ _ _ :: rest => c :: ptzTargets rest
  | _ :: rest => ptzTargets rest

theorem ptzParams_append (xs ys : List PtzEv) :
    ptzParams (xs ++ ys) = ptzParams xs ++ ptzParams ys := by
  induction xs with
  | nil => rfl
  | cons x rest ih => cases x <;> simp [ptzParams, ih]

theorem ptzParams_drain (c : CameraHandle) (cs : List CameraHandle)
    (q : List MoveTask) :
    ptzParams (process_camera_move_queue (c :: cs) q) =
      q.flatMap fun u => [u.type, "Stop"] := by
  induction q with
  | nil => rfl
  | cons t ts ih =>
    simp [process_camera_move_queue, process_camera_move, ptzParams_append,
      ptzParams, ih]

/-- C1: The camera-move queue is drained sequentially in strict FIFO
order: for a non-empty queue the drain loop emits the head task's motion
command, then the sleep for its duration, then `Stop`, and only then the
trace of the remaining queue; consequently the PTZ command sequence over
the whole drain is exactly `[move A, Stop, move B, Stop, ...]` in enqueue
order, and the loop ends when the queue is empty. -/
theorem camera_move_queue_fifo (c : CameraHandle) (cs : List CameraHandle)
    (t : MoveTask) (ts : List MoveTask) :
    process_camera_move_queue (c :: cs) (t :: ts) =
      PtzEv.ptz c.camera_id t.type 32 (t.marker.getD 0) ::
      PtzEv.sleep t.duration ::
      PtzEv.ptz c.camera_id "Stop" 32 0 ::
      process_camera_move_queue (c :: cs) ts ∧
    ptzParams (process_camera_move_queue (c :: cs) (t :: ts)) =
      (t :: ts).flatMap (fun u => [u.type, "Stop"]) ∧
    process_camera_move_queue (c :: cs) [] = [] := by
  refine ⟨?_, ptzParams_drain c cs (t :: ts), rfl⟩
  simp [process_camera_move_queue, process_camera_move]

/-! ## Camera stop lifecycle (C9) -/

/-- Mutable state of `MockCamera` touched by `stop`
(src/src/cameras/mock_camera.py lines 269-283): the `running` flag and
whether the underlying capture handle `_cap` is held. -/
structure MockCameraState where
  running : Bool
  capOpen : Bool
deriving DecidableEq, Repr

/-- `MockCamera.stop`: early-return when not running; otherwise clear the
running flag, join the capture thread (bounded), release `_cap` and set it
to `None`. -/
def mock_stop (s : MockCameraState) : MockCameraState :=
  if !s.running then s
  else { running := false, capOpen := false }

/-- Mutable state of `IPCamera` touched by `stop`
(src/src/cameras/ip_camera.py lines 118-133): the wrapper's `running` flag
and the wrapped `Camera`'s `running` flag. -/
structure IPCameraState where
  running : Bool
  innerRunning : Bool
deriving DecidableEq, Repr

/-- `IPCamera.stop`: early-return when not running; otherwise clear the
wrapper flag, call the inner `Camera.stop` (which clears its `running`
flag), and join the capture thread with a bounded timeout. -/
def ip_stop (s : IPCameraState) : IPCameraState :=
  if !s.running then s
  else { running := false, innerRunning := false }

/-- C9: `stop()` is idempotent on both camera kinds: a second call is the
identity (so it can raise no error and performs no further effect), and
after stopping twice the handle's `running` flag is `false`. -/
theorem stop_idempotent :
    (∀ s : MockCameraState,
      mock_stop (mock_stop s) = mock_stop s ∧
      (mock_stop (mock_stop s)).running = false) ∧
    (∀ s : IPCameraState,
      ip_stop (ip_stop s) = ip_stop s ∧
      (ip_stop (ip_stop s)).running = false) := by
  constructor
  · rintro ⟨r, c⟩
    cases r <;> simp [mock_stop]
  · rintro ⟨r, c⟩
    cases r <;> simp [ip_stop]

/-! ## Action dispatcher: classification and concurrent media (C2) -/

/-- An action dict from an event's action list, as consumed by
`action_dispatcher` (src/src/video_stream.py lines 171-202): tag string,
media file and duration. -/
structure DispatchAction where
  action : String
  file : String := ""
  duration : Nat := 0
deriving DecidableEq, Repr

/-- Dispatcher classification state: the (last) created audio task, the
(last) created video task, the display-mode actions in order, and the
camera-move queue appends in order. -/
structure ClassifyState where
  videoTask : Option DispatchAction
  audioTask : Option DispatchAction
  videoModeTasks : List DispatchAction
  cameraMoveQueue : List DispatchAction
deriving DecidableEq, Repr

def emptyClassifyState : ClassifyState := ⟨none, none, [], []⟩

/-- One iteration of `action_dispatcher`'s classification loop: a
`play_audio` action becomes the audio task (later ones overwrite),
`play_video` the video task, `video_mode` is appended to the mode list,
`camera_move` is appended to the shared queue; other tags are ignored. -/
def classifyStep (s : ClassifyState) (a : DispatchAction) : ClassifyState :=
  if a.action = "play_audio" then { s with audioTask := some a }
  else if a.action = "play_video" then { s with videoTask := some a }
  else if a.action = "video_mode" then
    { s with videoModeTasks := s.videoModeTasks ++ [a] }
  else if a.action = "camera_move" then
    { s with cameraMoveQueue := s.cameraMoveQueue ++ [a] }
  else s

def classify (actions : List DispatchAction) : ClassifyState :=
  actions.foldl classifyStep emptyClassifyState

/-- The media phase of `action_dispatcher`: gather both tasks when both
exist, await the single one when only one exists, skip otherwise. -/
inductive MediaPlan where
  | gatherBoth (v a : DispatchAction)
  | videoOnly (v : DispatchAction)
  | audioOnly (a : DispatchAction)
  | skip
deriving DecidableEq, Repr

def mediaPlan (s : ClassifyState) : MediaPlan :=
  match s.videoTask, s.audioTask with
  | some v, some a => MediaPlan.gatherBoth v a
  | some v, none => MediaPlan.videoOnly v
  | none, some a => MediaPlan.audioOnly a
  | none, none => MediaPlan.skip

/-- Which of the four media-phase shapes was taken. -/
inductive PlanShape where
  | both
  | videoAlone
  | audioAlone
  | skipped
deriving DecidableEq, Repr

def MediaPlan.shape : MediaPlan → PlanShape
  | MediaPlan.gatherBoth _ _ => PlanShape.both
  | MediaPlan.videoOnly _ => PlanShape.videoAlone
  | MediaPlan.audioOnly _ => PlanShape.audioAlone
  | MediaPlan.skip => PlanShape.skipped

/-- Completion-time semantics of the media phase under cooperative
concurrency: both tasks are created (and so start) during classification;
`asyncio.gather` completes when the slower task does, awaiting one task
takes its duration, and skipping takes no time.  `play_audio` sleeps its
declared duration and `play_video` runs until its declared duration
elapses, so each task's running time is its `duration` field. -/
def planCompletionTime : MediaPlan → Nat
  | MediaPlan.gatherBoth v a => max v.duration a.duration
  | MediaPlan.videoOnly v => v.duration
  | MediaPlan.audioOnly a => a.duration
  | MediaPlan.skip => 0

theorem classify_audio_isSome (actions : List DispatchAction)
    (s : ClassifyState) :
    (actions.foldl classifyStep s).audioTask.isSome =
      (s.audioTask.isSome || actions.any fun a => a.action == "play_audio") := by
  induction actions generalizing s with
  | nil => simp
  | cons a as ih =>
    rw [List.foldl_cons, ih, List.any_cons]
    unfold classifyStep
    split_ifs with h1 h2 h3 h4
    · simp [h1]
    · have hb : (a.action == "play_audio") = false := beq_eq_false_iff_ne.mpr h1
      simp [hb]
    · have hb : (a.action == "play_audio") = false := beq_eq_false_iff_ne.mpr h1
      simp [hb]
    · have hb : (a.action == "play_audio") = false := beq_eq_false_iff_ne.mpr h1
      simp [hb]
    · have hb : (a.action == "play_audio") = false := beq_eq_false_iff_ne.mpr h1
      simp [hb]

theorem classify_video_isSome (actions : List DispatchAction)
    (s : ClassifyState) :
    (actions.foldl classifyStep s).videoTask.isSome =
      (s.videoTask.isSome || actions.any fun a => a.action == "play_video") := by
  induction actions generalizing s with
  | nil => simp
  | cons a as ih =>
    rw [List.foldl_cons, ih, List.any_cons]
    unfold classifyStep
    split_ifs with h1 h2 h3 h4
    · have hb : (a.action == "play_video") = false := by
        simp [h1]
      simp [hb]
    · simp [h2]
    · have hb : (a.action == "play_video") = false := beq_eq_false_iff_ne.mpr h2
      simp [hb]
    · have hb : (a.action == "play_video") = false := beq_eq_false_iff_ne.mpr h2
      simp [hb]
    · have hb : (a.action == "play_video") = false := beq_eq_false_iff_ne.mpr h2
      simp [hb]

theorem mediaPlan_shape_of_isSome (s : ClassifyState) :
    (mediaPlan s).shape =
      (match s.videoTask.isSome, s.audioTask.isSome with
       | true, true => PlanShape.both
       | true, false => PlanShape.videoAlone
       | false, true => PlanShape.audioAlone
       | false, false => PlanShape.skipped) := by
  rcases s with ⟨v, a, m, q⟩
  cases v <;> cases a <;> rfl

/-- C2: The dispatcher's media phase is determined by which media actions
the event contains — both a `play_video` and a `play_audio` action
present means both are started and gathered together, exactly one present
means that one is awaited alone, neither means the phase is skipped — and
for an audio action of duration 2 with a video action of duration 5 the
phase completes in `max 2 5 = 5` time units, not the sequential `2 + 5 =
7`. -/
theorem action_dispatcher_concurrent_media (actions : List DispatchAction) :
    (mediaPlan (classify actions)).shape =
      (match actions.any (fun a => a.action == "play_video"),
             actions.any (fun a => a.action == "play_audio") with
       | true, true => PlanShape.both
       | true, false => PlanShape.videoAlone
       | false, true => PlanShape.audioAlone
       | false, false => PlanShape.skipped) ∧
    planCompletionTime (mediaPlan (classify
      [⟨"play_audio", "bhajan.mp3", 2⟩, ⟨"play_video", "insert.mp4", 5⟩])) = 5 ∧
    (5 : Nat) = max 2 5 ∧
    (5 : Nat) ≠ 2 + 5 := by
  refine ⟨?_, rfl, rfl, by decide⟩
  rw [mediaPlan_shape_of_isSome, classify, classify_audio_isSome,
    classify_video_isSome]
  simp [emptyClassifyState]

/-! ## Camera authentication with retries (C3) -/

/-- The observable outcome of one login attempt in `Camera.get_token`
(src/camera.py lines 26-57): either the HTTP post raises a
`requests.RequestException`, or a response arrives with a status code, a
truthiness for its parsed body, and — when the body is a list whose first
element has the nested `value.Token.name` chain — the token string found
there (`none` when the chain is absent and indexing raises `KeyError`). -/
inductive LoginAttempt where
  | netError
  | response (status : Nat) (bodyTruthy : Bool) (tokenName : Option String)
deriving DecidableEq, Repr

/-- How one iteration of the retry loop treats an attempt. -/
inductive AttemptResult where
  | success (token : String)
  | handledFailure
  | uncaughtError
deriving DecidableEq, Repr

/-- One iteration body of `get_token`: a raised `RequestException` is
caught (warning, retry); a response with status 200 and truthy body has
`json()[0]["value"]["Token"]["name"]` extracted — a `KeyError` there is
NOT caught by the `except requests.RequestException` clause and escapes;
any other response falls through to the retry path. -/
def evalLoginAttempt : LoginAttempt → AttemptResult
  | LoginAttempt.netError => AttemptResult.handledFailure
  | LoginAttempt.response status bodyTruthy tokenName =>
    if status = 200 ∧ bodyTruthy = true then
      match tokenName with
      | some t => AttemptResult.success t
      | none => AttemptResult.uncaughtError
    else AttemptResult.handledFailure

/-- Result of a whole `get_token` call: a token/session pair, the
`(None, None)` exhaustion return, or an uncaught exception escaping. -/
inductive GetTokenResult where
  | tokenSession (token : String)
  | noneNone
  | raisedError
deriving DecidableEq, Repr

/-- A `get_token` run: its result, how many attempts were made, and the
`time.sleep` durations performed between attempts. -/
structure GetTokenRun where
  result : GetTokenResult
  attemptsMade : Nat
  sleeps : List Nat
deriving DecidableEq, Repr

/-- The `for attempt in range(1, retries + 1)` loop of `get_token`,
recursing on the number of attempts still available; `attempt` is the
1-based attempt index and the loop sleeps `delay` only when
`attempt < retries`. -/
def get_token_go (outcomes : Nat → LoginAttempt) (delay attempt : Nat) :
    Nat → GetTokenRun
  | 0 => ⟨GetTokenResult.noneNone, 0, []⟩
  | remaining + 1 =>
    match evalLoginAttempt (outcomes attempt) with
    | AttemptResult.success t => ⟨GetTokenResult.tokenSession t, 1, []⟩
    | AttemptResult.uncaughtError => ⟨GetTokenResult.raisedError, 1, []⟩
    | AttemptResult.handledFailure =>
      if remaining = 0 then ⟨GetTokenResult.noneNone, 1, []⟩
      else
        let rest := get_token_go outcomes delay (attempt + 1) remaining
        ⟨rest.result, rest.attemptsMade + 1, delay :: rest.sleeps⟩

/-- `Camera.get_token(retries=3, timeout=10, delay=2)`, parametrised by
what each attempt's HTTP exchange yields. -/
def get_token (outcomes : Nat → LoginAttempt) (retries delay : Nat) :
    GetTokenRun :=
  get_token_go outcomes delay 1 retries

theorem get_token_go_all_handled (outcomes : Nat → LoginAttempt)
    (delay : Nat)
    (h : ∀ k, evalLoginAttempt (outcomes k) = AttemptResult.handledFailure) :
    ∀ remaining attempt,
      get_token_go outcomes delay attempt remaining =
        ⟨GetTokenResult.noneNone, remaining, List.replicate (remaining - 1) delay⟩ := by
  intro remaining
  induction remaining with
  | zero => intro attempt; rfl
  | succ r ih =>
    intro attempt
    rw [get_token_go, h attempt]
    rcases Nat.eq_zero_or_pos r with hr | hr
    · subst hr; rfl
    · rw [if_neg (Nat.pos_iff_ne_zero.mp hr), ih (attempt + 1)]
      have : r.succ - 1 = (r - 1) + 1 := by omega
      simp [this, List.replicate_succ]

/-- C3 (amended): when every attempt fails in a way the retry loop
handles — a raised network error, or a response whose status is not 200
or whose parsed body is falsy — `get_token` makes exactly `retries`
attempts, sleeps the fixed `delay` between consecutive attempts
(`retries - 1` sleeps), and returns `(None, None)` rather than raising. -/
theorem get_token_all_fail_returns_none (outcomes : Nat → LoginAttempt)
    (retries delay : Nat)
    (h : ∀ k, outcomes k = LoginAttempt.netError ∨
      ∃ s bt tn, outcomes k = LoginAttempt.response s bt tn ∧
        (s ≠ 200 ∨ bt = false)) :
    get_token outcomes retries delay =
      ⟨GetTokenResult.noneNone, retries, List.replicate (retries - 1) delay⟩ := by
  have hh : ∀ k, evalLoginAttempt (outcomes k) = AttemptResult.handledFailure := by
    intro k
    rcases h k with hk | ⟨s, bt, tn, hk, hbad⟩
    · rw [hk]; rfl
    · rw [hk]
      simp only [evalLoginAttempt]
      rw [if_neg]
      rcases hbad with hs | hb
      · exact fun hc => hs hc.1
      · intro hc
        rw [hb] at hc
        exact Bool.false_ne_true hc.2
  exact get_token_go_all_handled outcomes delay hh retries 1

/-- C3 witness: a stub whose every attempt raises a network error, with
the default `retries = 3` and `delay = 2`, yields `(None, None)` after
exactly 3 attempts with two sleeps of 2 seconds between them. -/
theorem get_token_all_fail_witness :
    get_token (fun _ => LoginAttempt.netError) 3 2 =
      ⟨GetTokenResult.noneNone, 3, [2, 2]⟩ := by
  have h := get_token_all_fail_returns_none (fun _ => LoginAttempt.netError) 3 2
    (fun k => Or.inl rfl)
  simpa using h

/-- C3 counterexample: the claim that a malformed response "counts as a
failed attempt" and that exhaustion returns `(none, none)` rather than
raising is false as stated — a response with status 200 and a truthy JSON
body that lacks the `value.Token.name` structure raises an uncaught
`KeyError` on the very first attempt (the `except` clause only catches
`requests.RequestException`), so `get_token` raises instead of retrying
or returning `(None, None)`. -/
theorem get_token_malformed_raises :
    get_token (fun _ => LoginAttempt.response 200 true none) 3 2 =
      ⟨GetTokenResult.raisedError, 1, []⟩ ∧
    GetTokenResult.raisedError ≠ GetTokenResult.noneNone := by
  exact ⟨rfl, by decide⟩

/-! ## PTZ command validation (C4) -/

/-- A PTZ request payload as built by `Camera.send_ptz_command`
(src/camera.py lines 59-78): directional/zoom ops carry a speed, `ToPos`
carries a preset id and speed, `Stop` carries neither. -/
inductive PtzPayload where
  | opSpeed (op : String) (speed : Nat)
  | opIdSpeed (op : String) (id speed : Nat)
  | opOnly (op : String)
deriving DecidableEq, Repr

/-- The parameter vocabulary accepted by the first branch of
`send_ptz_command`: four directions, four diagonals, zoom in/out. -/
def ptzDirections : List String :=
  ["Left", "Right", "Up", "Down", "ZoomInc", "ZoomDec",
   "LeftUp", "LeftDown", "RightUp", "RightDown"]

/-- Observable outcome of one `Camera.send_ptz_command` call: the device
calls attempted, which warnings/errors were logged, and whether an
exception escaped the method (it has no try/except of its own). -/
structure SendPtzOutcome where
  deviceCalls : List PtzPayload
  warnedInvalidParameter : Bool
  warnedNonPtz : Bool
  loggedSendFailure : Bool
  raised : Bool
deriving DecidableEq, Repr

/-- Posting a built payload: `post = none` models the HTTP call raising
(which would escape `Camera.send_ptz_command`); `post = some status`
models a response, with a non-200 status logged as an error. -/
def postPayload (p : PtzPayload) (post : Option Nat) : SendPtzOutcome :=
  match post with
  | none => ⟨[p], false, false, false, true⟩
  | some status => ⟨[p], false, false, status != 200, false⟩

/-- `Camera.send_ptz_command(command, parameter, id)`: only `PtzCtrl`
commands are handled; a parameter outside the vocabulary logs
"Invalid parameter" and returns (`None`) without any device call. -/
def camera_send_ptz_command (command parameter : String) (id : Nat)
    (post : Option Nat) : SendPtzOutcome :=
  if command = "PtzCtrl" then
    if ptzDirections.contains parameter then
      postPayload (PtzPayload.opSpeed parameter 32) post
    else if parameter = "ToPos" then
      postPayload (PtzPayload.opIdSpeed parameter id 32) post
    else if parameter = "Stop" then
      postPayload (PtzPayload.opOnly parameter) post
    else ⟨[], true, false, false, false⟩
  else ⟨[], false, true, false, false⟩

/-- `IPCamera.send_ptz_command` (src/src/cameras/ip_camera.py lines
81-99): delegates to the wrapped `Camera` and returns `True` unless an
exception escaped, in which case it logs and returns `False`. -/
def ipcamera_send_ptz_command (command parameter : String) (id : Nat)
    (post : Option Nat) : Bool × SendPtzOutcome :=
  let r := camera_send_ptz_command command parameter id post
  (!r.raised, r)

/-- C4: evaluation of the code at the failing input.  For a `PtzCtrl`
command with a parameter outside the allowed vocabulary the driver makes
no device call and logs the rejection — but it simply returns `None`
instead of signalling failure, so the `IPCamera` wrapper (whose contract
is "True if command was sent successfully, False otherwise") reports
`True`: the rejected action is indistinguishable from a successful one to
the caller, contradicting the documented success/failure result. -/
theorem send_ptz_invalid_parameter_reports_success :
    (camera_send_ptz_command "PtzCtrl" "Backflip" 0 (some 200)).deviceCalls
      = [] ∧
    (camera_send_ptz_command "PtzCtrl" "Backflip" 0
      (some 200)).warnedInvalidParameter = true ∧
    (ipcamera_send_ptz_command "PtzCtrl" "Backflip" 0 (some 200)).1 = true ∧
    (ipcamera_send_ptz_command "PtzCtrl" "Left" 0 (some 200)).1 = true := by
  exact ⟨rfl, rfl, rfl, rfl⟩

/-! ## Camera registry, factory, and roster builder (C5, C6, C10) -/

/-- A camera configuration dict entry, with the keys read by the roster
builder and the two registered plugin constructors.  `Option` fields model
possibly-absent dict keys; string fields read through `.get(key, "")`
default to the empty string, which Python treats as falsy. -/
structure CamConfig where
  id : Option Nat := none
  type : Option String := none
  rtsp_url : String := ""
  https_ip : String := ""
  https_username : String := ""
  https_password : String := ""
  source : Option String := none
  video_path : Option String := none
  webcam_index : Option Nat := none
deriving DecidableEq, Repr

/-- A registered constructor: given the camera id and config, either a
handle or the message of the exception construction raised. -/
abbrev CamCtor := Nat → CamConfig → Except String CameraHandle

/-- The registry contents: the class-level `_cameras` dict of
`CameraRegistry`, as an association list from kind tag to constructor. -/
abbrev Registry := List (String × CamCtor)

def lookupCtor (reg : Registry) (kind : String) : Option CamCtor :=
  (reg.find? fun e => e.1 == kind).map fun e => e.2

def registeredKinds (reg : Registry) : List String := reg.map fun e => e.1

/-- Errors `CameraRegistry.create_camera` can raise: the `ValueError` for
an unregistered kind (carrying the available kinds, as the message does),
or a re-raised construction error. -/
inductive CreateError where
  | unknownKind (kind : String) (available : List String)
  | constructionError (msg : String)
deriving DecidableEq, Repr

/-- `CameraRegistry.create_camera` (src/src/camera_registry.py lines
39-69): raise `ValueError` when the kind is unregistered; otherwise call
the constructor, and re-raise (propagate) whatever it raises. -/
def create_camera (reg : Registry) (kind : String) (id : Nat)
    (cfg : CamConfig) : Except CreateError CameraHandle :=
  match lookupCtor reg kind with
  | none => Except.error (CreateError.unknownKind kind (registeredKinds reg))
  | some ctor =>
    match ctor id cfg with
    | Except.ok h => Except.ok h
    | Except.error e => Except.error (CreateError.constructionError e)

/-- C5: for every registry state — the empty registry included — creating
a camera with an unregistered kind tag fails with the unknown-kind error;
for a registered kind the registered constructor is invoked and its
result is passed through: a construction error is propagated to the
caller (wrapped as the re-raised exception), and a successful handle is
returned as-is. -/
theorem create_camera_registry_spec (reg : Registry) (kind : String)
    (id : Nat) (cfg : CamConfig) :
    (lookupCtor reg kind = none →
      create_camera reg kind id cfg =
        Except.error (CreateError.unknownKind kind (registeredKinds reg))) ∧
    (∀ ctor, lookupCtor reg kind = some ctor →
      (∀ e, ctor id cfg = Except.error e →
        create_camera reg kind id cfg =
          Except.error (CreateError.constructionError e)) ∧
      (∀ h, ctor id cfg = Except.ok h →
        create_camera reg kind id cfg = Except.ok h)) := by
  refine ⟨fun hnone => ?_, fun ctor hsome => ⟨fun e he => ?_, fun h hh => ?_⟩⟩
  · unfold create_camera
    rw [hnone]
  · unfold create_camera
    rw [hsome]
    dsimp only
    rw [he]
  · unfold create_camera
    rw [hsome]
    dsimp only
    rw [hh]

/-- C5 witness: on the empty registry every kind — here "nonexistent" —
fails with the unknown-kind error listing no available kinds; and on a
one-entry registry whose constructor always raises, the construction
error is propagated. -/
theorem create_camera_registry_spec_witness :
    create_camera [] "nonexistent" 0 {} =
      Except.error (CreateError.unknownKind "nonexistent" []) ∧
    create_camera [("boom", fun _ _ => Except.error "missing field")]
        "boom" 0 {} =
      Except.error (CreateError.constructionError "missing field") := by
  constructor
  · exact (create_camera_registry_spec [] "nonexistent" 0 {}).1 rfl
  · exact ((create_camera_registry_spec
      [("boom", fun _ _ => Except.error "missing field")] "boom" 0 {}).2
      (fun _ _ => Except.error "missing field") rfl).1 "missing field" rfl

/-- The `IPCamera.__init__` constructor (src/src/cameras/ip_camera.py):
after `CameraInterface.__init__` stores `camera_id`, it reads
`rtsp_url` and the `https` sub-dict with empty-string defaults and raises
`ValueError` unless all four values are truthy; then it builds the inner
`Camera`, whose `get_token` login runs — a login whose malformed success
response raises propagates out of the constructor (it is re-raised).
`login` supplies the attempt outcomes of that embedded `get_token` run. -/
def ipCtor (login : Nat → LoginAttempt) : CamCtor := fun id cfg =>
  if cfg.rtsp_url ≠ "" ∧ cfg.https_ip ≠ "" ∧ cfg.https_username ≠ "" ∧
      cfg.https_password ≠ "" then
    match (get_token login 3 2).result with
    | GetTokenResult.raisedError => Except.error "login raised"
    | _ => Except.ok ⟨id, "ip_camera"⟩
  else Except.error "IP camera missing required configuration"

/-- The `MockCamera.__init__` constructor (src/src/cameras/mock_camera.py):
after `CameraInterface.__init__` stores `camera_id`, the source defaults
to "generated"; a "video" source raises unless the path is non-empty and
the file exists and opens (`fs` oracle), a "webcam" source raises unless
the device opens (`webcamOk` oracle), "images" and "generated" always
succeed, and an unknown source string raises `ValueError`. -/
def mockCtor (fs : String → Bool) (webcamOk : Nat → Bool) : CamCtor :=
  fun id cfg =>
    if cfg.source.getD "generated" = "video" then
      if cfg.video_path.getD "" ≠ "" ∧ fs (cfg.video_path.getD "") = true then
        Except.ok ⟨id, "mock"⟩
      else Except.error "Video file not found"
    else if cfg.source.getD "generated" = "images" then Except.ok ⟨id, "mock"⟩
    else if cfg.source.getD "generated" = "webcam" then
      if webcamOk (cfg.webcam_index.getD 0) then Except.ok ⟨id, "mock"⟩
      else Except.error "Could not open webcam"
    else if cfg.source.getD "generated" = "generated" then
      Except.ok ⟨id, "mock"⟩
    else Except.error "Unknown mock camera source"

/-- The registry as populated at startup by `import cameras`
(src/src/cameras/init imports ip_camera and mock_camera, whose
`@register_camera` decorators register these two kinds). -/
def defaultRegistry (login : Nat → LoginAttempt) (fs : String → Bool)
    (webcamOk : Nat → Bool) : Registry :=
  [("ip_camera", ipCtor login), ("mock", mockCtor fs webcamOk)]

/-- The body of the roster-builder loop
(src/src/camera_registry.py lines 157-166) for the entry at position `i`:
the id defaults to `i`, the kind defaults to "ip_camera", and a raised
construction error is caught (logged) and yields no camera. -/
def buildEntry (reg : Registry) (i : Nat) (cfg : CamConfig) :
    Option CameraHandle :=
  (create_camera reg (cfg.type.getD "ip_camera") (cfg.id.getD i) cfg).toOption

/-- The `for i, cam_config in enumerate(cameras_config)` loop of
`create_cameras_from_config`, carrying the running index. -/
def create_cameras_go (reg : Registry) (i : Nat) :
    List CamConfig → List CameraHandle
  | [] => []
  | cfg :: rest =>
    match buildEntry reg i cfg with
    | some h => h :: create_cameras_go reg (i + 1) rest
    | none => create_cameras_go reg (i + 1) rest

/-- `create_cameras_from_config(cameras_config)`
(src/src/camera_registry.py lines 141-170). -/
def create_cameras_from_config (reg : Registry) (cfgs : List CamConfig) :
    List CameraHandle :=
  create_cameras_go reg 0 cfgs

theorem create_cameras_go_eq_filterMap (reg : Registry)
    (cfgs : List CamConfig) :
    ∀ i, create_cameras_go reg i cfgs =
      (cfgs.enumFrom i).filterMap fun p => buildEntry reg p.1 p.2 := by
  induction cfgs with
  | nil => intro i; rfl
  | cons cfg rest ih =>
    intro i
    rw [create_cameras_go, List.enumFrom, List.filterMap_cons, ih (i + 1)]
    cases buildEntry reg i cfg <;> rfl

/-- C6: roster construction is best-effort and total — the roster equals
the in-order collection of the entries whose construction succeeded
(index `i` paired with the `i`-th config), so an entry whose constructor
raises is simply omitted while every later entry is still attempted, and
the builder returns the successful handles without raising. -/
theorem create_cameras_best_effort (reg : Registry)
    (cfgs : List CamConfig) :
    create_cameras_from_config reg cfgs =
      cfgs.enum.filterMap fun p => buildEntry reg p.1 p.2 := by
  rw [create_cameras_from_config, create_cameras_go_eq_filterMap, List.enum]

theorem ipCtor_ok_camera_id (login : Nat → LoginAttempt) (id : Nat)
    (cfg : CamConfig) (h : CameraHandle)
    (hok : ipCtor login id cfg = Except.ok h) : h.camera_id = id := by
  unfold ipCtor at hok
  split_ifs at hok
  split at hok
  · cases hok
  · cases hok
    rfl

theorem mockCtor_ok_camera_id (fs : String → Bool) (webcamOk : Nat → Bool)
    (id : Nat) (cfg : CamConfig) (h : CameraHandle)
    (hok : mockCtor fs webcamOk id cfg = Except.ok h) : h.camera_id = id := by
  unfold mockCtor at hok
  split_ifs at hok <;> (cases hok) <;> rfl

theorem lookupCtor_default (login : Nat → LoginAttempt) (fs : String → Bool)
    (webcamOk : Nat → Bool) (kind : String) (ctor : CamCtor)
    (hl : lookupCtor (defaultRegistry login fs webcamOk) kind = some ctor) :
    ctor = ipCtor login ∨ ctor = mockCtor fs webcamOk := by
  unfold lookupCtor defaultRegistry at hl
  rw [List.find?] at hl
  cases h1 : (("ip_camera", ipCtor login).1 == kind)
  · rw [h1] at hl
    rw [List.find?] at hl
    cases h2 : (("mock", mockCtor fs webcamOk).1 == kind)
    · rw [h2] at hl
      simp [List.find?] at hl
    · rw [h2] at hl
      simp at hl
      exact Or.inr hl.symm
  · rw [h1] at hl
    simp at hl
    exact Or.inl hl.symm

/-- C10: for every entry of the configuration list, the roster builder
defaults a missing `id` key to the entry's position `i` and a missing
`type` key to "ip_camera" (the kind and id actually handed to the
factory), and whichever registered constructor runs stores exactly that
id on the created handle, so a successfully built handle carries
`cfg.id.getD i` as its `camera_id`. -/
theorem build_entry_defaults (login : Nat → LoginAttempt)
    (fs : String → Bool) (webcamOk : Nat → Bool) (i : Nat)
    (cfg : CamConfig) :
    buildEntry (defaultRegistry login fs webcamOk) i cfg =
      (create_camera (defaultRegistry login fs webcamOk)
        (cfg.type.getD "ip_camera") (cfg.id.getD i) cfg).toOption ∧
    (∀ h, buildEntry (defaultRegistry login fs webcamOk) i cfg = some h →
      h.camera_id = cfg.id.getD i) := by
  refine ⟨rfl, fun h hok => ?_⟩
  unfold buildEntry create_camera at hok
  rcases hl : lookupCtor (defaultRegistry login fs webcamOk)
      (cfg.type.getD "ip_camera") with _ | ctor
  · rw [hl] at hok; cases hok
  · rw [hl] at hok
    dsimp only at hok
    rcases hc : ctor (cfg.id.getD i) cfg with e | hh
    · rw [hc] at hok; cases hok
    · rw [hc] at hok
      simp only [Except.toOption, Option.some.injEq] at hok
      subst hok
      rcases lookupCtor_default login fs webcamOk _ ctor hl with hctor | hctor
      · exact ipCtor_ok_camera_id login _ cfg _ (hctor ▸ hc)
      · exact mockCtor_ok_camera_id fs webcamOk _ cfg _ (hctor ▸ hc)

/-- C10 witness: a config entry at position 4 with no `id` key and kind
"mock" builds a handle whose `camera_id` is 4, and with the theorem's
defaulting equation the kind used is the entry's `type` (here "mock"). -/
theorem build_entry_defaults_witness :
    buildEntry (defaultRegistry (fun _ => LoginAttempt.netError)
        (fun _ => true) (fun _ => true)) 4 { type := some "mock" } =
      some ⟨4, "mock"⟩ ∧
    (⟨4, "mock"⟩ : CameraHandle).camera_id = 4 := by
  refine ⟨rfl, ?_⟩
  exact (build_entry_defaults (fun _ => LoginAttempt.netError)
    (fun _ => true) (fun _ => true) 4 { type := some "mock" }).2
    ⟨4, "mock"⟩ rfl

/-! ## Camera-move target resolution (C7) -/

/-- An action dict as consumed by the legacy `execute_action`
(src/video_stream.py lines 209-224): the tag plus the optional keys the
function reads with defaults. -/
structure LegacyAction where
  action : String
  camera_id : Option Nat := none
  type : Option String := none
  speed : Option Nat := none
  marker_id : Option Nat := none
  duration : Option Nat := none
deriving DecidableEq, Repr

/-- `execute_action(action, cameras)`: for a `camera_move` action the
camera id defaults to 0 and the first roster camera whose `camera_id`
equals it is selected; if one is found, the motion command, a sleep for
the duration, and a `Stop` are issued to that camera, otherwise a warning
is logged and nothing is sent.  Non-`camera_move` tags log an
unknown-action warning. -/
def execute_action (a : LegacyAction) (cams : List CameraHandle) :
    List PtzEv :=
  if a.action = "camera_move" then
    match cams.find? fun c => c.camera_id == a.camera_id.getD 0 with
    | some cam =>
      [PtzEv.ptz cam.camera_id (a.type.getD "") (a.speed.getD 32)
        (a.marker_id.getD (a.camera_id.getD 0)),
       PtzEv.sleep (a.duration.getD 0),
       PtzEv.ptz cam.camera_id "Stop" 32 (a.camera_id.getD 0)]
    | none => [PtzEv.warnCameraNotFound]
  else [PtzEv.warnUnknownAction]

/-- C7 (amended): in the legacy dispatcher the action's camera identifier
(defaulting to 0) is resolved against the roster — when a camera with
that `camera_id` exists, the motion command and the following `Stop` are
sent to exactly that camera, and when none matches the action is a no-op
apart from a logged warning.  In the async path, by contrast,
`process_camera_move` sends the motion and `Stop` to the first roster
camera regardless of any identifier the action carries, and with an
empty roster it sends nothing (and warns nothing). -/
theorem camera_move_target_resolution (a : LegacyAction)
    (cams : List CameraHandle) (c : CameraHandle)
    (cs : List CameraHandle) (t : MoveTask) :
    (a.action = "camera_move" →
      (∀ cam, (cams.find? fun x => x.camera_id == a.camera_id.getD 0)
          = some cam →
        execute_action a cams =
          [PtzEv.ptz cam.camera_id (a.type.getD "") (a.speed.getD 32)
            (a.marker_id.getD (a.camera_id.getD 0)),
           PtzEv.sleep (a.duration.getD 0),
           PtzEv.ptz cam.camera_id "Stop" 32 (a.camera_id.getD 0)]) ∧
      ((cams.find? fun x => x.camera_id == a.camera_id.getD 0) = none →
        execute_action a cams = [PtzEv.warnCameraNotFound])) ∧
    process_camera_move (c :: cs) t =
      [PtzEv.ptz c.camera_id t.type 32 (t.marker.getD 0),
       PtzEv.sleep t.duration,
       PtzEv.ptz c.camera_id "Stop" 32 0] ∧
    process_camera_move [] t = [PtzEv.sleep t.duration] := by
  refine ⟨fun hmove => ⟨fun cam hfind => ?_, fun hnone => ?_⟩, rfl, rfl⟩
  · unfold execute_action
    rw [if_pos hmove, hfind]
  · unfold execute_action
    rw [if_pos hmove, hnone]

/-- C7 witness: with roster cameras 0 and 1, a `camera_move` action
naming camera 1 is sent to camera 1; and an action naming camera 5,
which matches nothing, is a warned no-op. -/
theorem camera_move_target_resolution_witness :
    execute_action
        { action := "camera_move", camera_id := some 1,
          type := some "Left", duration := some 2 }
        [⟨0, "mock"⟩, ⟨1, "mock"⟩] =
      [PtzEv.ptz 1 "Left" 32 1, PtzEv.sleep 2, PtzEv.ptz 1 "Stop" 32 1] ∧
    execute_action
        { action := "camera_move", camera_id := some 5,
          type := some "Left", duration := some 2 }
        [⟨0, "mock"⟩, ⟨1, "mock"⟩] = [PtzEv.warnCameraNotFound] := by
  constructor
  · exact (((camera_move_target_resolution
      { action := "camera_move", camera_id := some 1,
        type := some "Left", duration := some 2 }
      [⟨0, "mock"⟩, ⟨1, "mock"⟩] ⟨0, "mock"⟩ [] ⟨"Left", 2, none, none⟩).1 rfl).1
      ⟨1, "mock"⟩ rfl)
  · exact (((camera_move_target_resolution
      { action := "camera_move", camera_id := some 5,
        type := some "Left", duration := some 2 }
      [⟨0, "mock"⟩, ⟨1, "mock"⟩] ⟨0, "mock"⟩ [] ⟨"Left", 2, none, none⟩).1 rfl).2 rfl)

/-- C7 counterexample: the claim that the motion command is sent to the
camera referenced by the action's identifier is false for the async
path — with a roster holding cameras 0 and 9 and a queued move whose
dict carries `camera_id: 9` (a valid roster camera), `process_camera_move`
sends both the motion and the `Stop` to camera 0; camera 9 never receives
a command. -/
theorem process_camera_move_ignores_camera_id :
    process_camera_move [⟨0, "mock"⟩, ⟨9, "mock"⟩]
        { type := "Left", duration := 2, camera_id := some 9 } =
      [PtzEv.ptz 0 "Left" 32 0, PtzEv.sleep 2, PtzEv.ptz 0 "Stop" 32 0] ∧
    ptzTargets (process_camera_move [⟨0, "mock"⟩, ⟨9, "mock"⟩]
        { type := "Left", duration := 2, camera_id := some 9 }) = [0, 0] ∧
    (9 : Nat) ∉ ptzTargets (process_camera_move [⟨0, "mock"⟩, ⟨9, "mock"⟩]
        { type := "Left", duration := 2, camera_id := some 9 }) := by
  refine ⟨rfl, rfl, by decide⟩

/-! ## Schedule walker (C8) -/

/-- An event of the orchestration schedule: name, `start_time` and
`end_time` parsed from "HH:MM" (modelled as minutes since midnight, an
order-isomorphic image of Python's `datetime.time` comparison), and the
action list. -/
structure SchedEvent where
  name : String
  start_time : Nat
  end_time : Nat
  actions : List DispatchAction
deriving DecidableEq, Repr

/-- A programme: name plus its events in declaration order. -/
structure Programme where
  name : String
  events : List SchedEvent
deriving DecidableEq, Repr

/-- Trace entries of one scan pass of `main`
(src/src/video_stream.py lines 204-221): each event is checked, and the
in-window events additionally have their actions dispatched (the `await
action_dispatcher(...)` completes before the loop continues). -/
inductive ScanEv where
  | checked (e : SchedEvent)
  | dispatched (e : SchedEvent)
deriving DecidableEq, Repr

/-- The per-event body of the scan: log the check, and when
`event_start <= time_now < event_end` run the dispatcher synchronously. -/
def scanEvent (now : Nat) (e : SchedEvent) : List ScanEv :=
  ScanEv.checked e ::
    (if e.start_time ≤ now ∧ now < e.end_time then [ScanEv.dispatched e]
     else [])

def scanProgramme (now : Nat) (p : Programme) : List ScanEv :=
  p.events.flatMap (scanEvent now)

/-- One full pass over the schedule at time `now`: programmes in order,
events in declaration order. -/
def scanPass (now : Nat) (progs : List Programme) : List ScanEv :=
  progs.flatMap (scanProgramme now)

/-- The events dispatched in a trace, in order. -/
def dispatchedEvents : List ScanEv → List SchedEvent
  | [] => []
  | ScanEv.dispatched e :: rest => e :: dispatchedEvents rest
  | ScanEv.checked _ :: rest => dispatchedEvents rest

theorem dispatchedEvents_append (xs ys : List ScanEv) :
    dispatchedEvents (xs ++ ys) =
      dispatchedEvents xs ++ dispatchedEvents ys := by
  induction xs with
  | nil => rfl
  | cons x rest ih => cases x <;> simp [dispatchedEvents, ih]

theorem dispatchedEvents_scanProgramme (now : Nat) (p : Programme) :
    dispatchedEvents (scanProgramme now p) =
      p.events.filter fun e =>
        decide (e.start_time ≤ now ∧ now < e.end_time) := by
  unfold scanProgramme
  induction p.events with
  | nil => rfl
  | cons e rest ih =>
    rw [List.flatMap_cons, dispatchedEvents_append, ih, List.filter_cons]
    unfold scanEvent
    by_cases h : e.start_time ≤ now ∧ now < e.end_time
    · rw [if_pos h]
      simp [dispatchedEvents, h]
    · rw [if_neg h]
      simp [dispatchedEvents, h]

/-- C8: on every scan pass, the events whose actions get dispatched are
exactly — and in declaration order, programmes first — those whose
half-open window contains the current time: an event is dispatched when
`start <= now < end` (the window check of the inner loop), and not
dispatched when `now < start` or `now >= end`; each dispatch appears in
the trace immediately after its own check and before any later event is
checked, i.e. it completes synchronously before the scan continues. -/
theorem schedule_walker_window (now : Nat) (progs : List Programme) :
    dispatchedEvents (scanPass now progs) =
      (progs.flatMap Programme.events).filter (fun e =>
        decide (e.start_time ≤ now ∧ now < e.end_time)) ∧
    (∀ e : SchedEvent, e.start_time ≤ now → now < e.end_time →
      scanEvent now e = [ScanEv.checked e, ScanEv.dispatched e]) ∧
    (∀ e : SchedEvent, now < e.start_time ∨ e.end_time ≤ now →
      scanEvent now e = [ScanEv.checked e]) ∧
    scanPass now progs = progs.flatMap fun p =>
      p.events.flatMap (scanEvent now) := by
  refine ⟨?_, fun e h1 h2 => ?_, fun e hout => ?_, rfl⟩
  · unfold scanPass
    induction progs with
    | nil => rfl
    | cons p ps ih =>
      rw [List.flatMap_cons, dispatchedEvents_append, ih,
        dispatchedEvents_scanProgramme, List.flatMap_cons, List.filter_append]
  · unfold scanEvent
    rw [if_pos ⟨h1, h2⟩]
  · unfold scanEvent
    rw [if_neg]
    rcases hout with h | h
    · exact fun hc => absurd hc.1 (Nat.not_le.mpr h)
    · exact fun hc => absurd hc.2 (Nat.not_lt.mpr h)

/-- C8 witness: at 12:05 (725 minutes) an event windowed 12:00-12:15
(720-735) is checked and dispatched; an event windowed 12:15-12:30 is
checked only; and a one-programme schedule holding both dispatches
exactly the first. -/
theorem schedule_walker_window_witness :
    scanEvent 725 ⟨"arati", 720, 735, []⟩ =
      [ScanEv.checked ⟨"arati", 720, 735, []⟩,
       ScanEv.dispatched ⟨"arati", 720, 735, []⟩] ∧
    scanEvent 725 ⟨"class", 735, 750, []⟩ =
      [ScanEv.checked ⟨"class", 735, 750, []⟩] ∧
    dispatchedEvents (scanPass 725
        [⟨"morning", [⟨"arati", 720, 735, []⟩, ⟨"class", 735, 750, []⟩]⟩]) =
      [⟨"arati", 720, 735, []⟩] := by
  refine ⟨(schedule_walker_window 725 []).2.1 ⟨"arati", 720, 735, []⟩
    (by decide) (by decide), (schedule_walker_window 725 []).2.2.1
    ⟨"class", 735, 750, []⟩ (Or.inl (by decide)), ?_⟩
  rw [(schedule_walker_window 725
    [⟨"morning", [⟨"arati", 720, 735, []⟩, ⟨"class", 735, 750, []⟩]⟩]).1]
  rfl

end IskconBroadcast
